import Mathlib

/-!
Verification of the conversation client in `openai_model.py`.

The Python class `OpenAIModel` keeps an ordered message history
(`self._messages`), forwards it to a remote chat-completion endpoint, and
exposes the latest raw response (`self._response`).  This file is a shallow
embedding of that class: each method becomes a pure Lean function, the two
remote calls (`client.chat.completions.create` and `client.models.list`)
become an explicit `Except`-valued argument describing the outcome of the
remote call, and a Python `raise` that the method lets escape becomes an
`Except.error` result.  Logging is pure observation and is not modelled.
-/

/-- A chat message, the shape of the Python dict
`{"role": role, "content": content}` and of the `message` field of a
completion choice. -/
structure Message where
  role : String
  content : String
deriving DecidableEq

/-- One completion candidate of the remote response (`response.choices[i]`). -/
structure Choice where
  message : Message
deriving DecidableEq

/-- The raw remote chat-completion response: the client only ever reads
`choices`. -/
structure ChatCompletion where
  choices : List Choice
deriving DecidableEq

/-- One record of the remote model catalog (`model["id"]` is the only field
read). -/
structure ModelInfo where
  id : String
deriving DecidableEq

/-- The raw remote model-catalog response (`models["data"]`). -/
structure ModelList where
  data : List ModelInfo
deriving DecidableEq

/-- The two `ValueError`s that `add_message` can raise; the spec calls them
ValidationError with messages "invalid role" and "empty content". -/
inductive ValueError where
  | invalidRole
  | emptyContent
deriving DecidableEq

/-- An uncaught `IndexError` (subscripting an empty `choices` list outside
any `try` block). -/
inductive IndexError where
  | outOfRange
deriving DecidableEq

/-- The client state: credential, selected model, resolved token budget,
message history `self._messages` and last raw response `self._response`. -/
structure OpenAIModel where
  api_key : String
  model_name : String
  max_tokens : Nat
  _messages : List Message
  _response : Option ChatCompletion
deriving DecidableEq

/-- Python `content.strip()` on the character list: drop whitespace from the
tail, then from the head (the order does not matter). -/
def stripChars (l : List Char) : List Char :=
  List.dropWhile Char.isWhitespace (List.rdropWhile Char.isWhitespace l)

/-- Python `content.strip()`. -/
def pyStrip (s : String) : String :=
  String.mk (stripChars s.toList)

/-- `get_model_max_tokens`: look the model name up in the static
`token_limits` dict; a falsy result (absent, or a zero entry) falls back to
the default 4096. -/
def get_model_max_tokens (model_name : String) : Nat :=
  let token_limits : List (String × Nat) :=
    [("gpt-4o-mini", 16384), ("gpt-3.5-turbo", 4096)]
  match List.lookup model_name token_limits with
  | none => 4096
  | some m => if m = 0 then 4096 else m

/-- `__init__`: store the credential and model name, resolve `max_tokens`
once from the table, start with an empty history and no stored response. -/
def OpenAIModel.init (api_key : String) (model_name : String) : OpenAIModel :=
  { api_key := api_key
    model_name := model_name
    max_tokens := get_model_max_tokens model_name
    _messages := []
    _response := none }

/-- `add_message`: reject a role outside {user, assistant, system}, then
reject content that is empty after stripping, else append the stripped
message.  The returned state is the state the Python object is left in
(unchanged whenever the method raises, because both checks precede the
append); the `Except` component is the raised `ValueError`, if any. -/
def OpenAIModel.add_message (self : OpenAIModel) (role content : String) :
    OpenAIModel × Except ValueError Unit :=
  if ¬(role = "user" ∨ role = "assistant" ∨ role = "system") then
    (self, Except.error ValueError.invalidRole)
  else if pyStrip content = "" then
    (self, Except.error ValueError.emptyContent)
  else
    ({ self with _messages := self._messages ++ [⟨role, pyStrip content⟩] },
     Except.ok ())

/-- `chat`: `remote` is the outcome of `client.chat.completions.create`
(error = any exception it raised, carried as a message string).  Inside the
`try` block the code reads `response.choices[0].message.content.strip()`
(an empty `choices` raises `IndexError`, caught by the handler), appends it
via `add_message` (whose `ValueError` is also caught by the handler), and
only then stores the raw response.  The handler returns `None` and performs
no state change of its own. -/
def OpenAIModel.chat (self : OpenAIModel)
    (remote : Except String ChatCompletion) : OpenAIModel × Option String :=
  match remote with
  | Except.error _ => (self, none)
  | Except.ok response =>
    match response.choices with
    | [] => (self, none)
    | choice :: _ =>
      match self.add_message "assistant" (pyStrip choice.message.content) with
      | (s1, Except.error _) => (s1, none)
      | (s1, Except.ok _) =>
        ({ s1 with _response := some response },
         some (pyStrip choice.message.content))

/-- `reset_conversation`: clear the history and the stored response. -/
def OpenAIModel.reset_conversation (self : OpenAIModel) : OpenAIModel :=
  { self with _messages := [], _response := none }

/-- `get_last_response`: when a raw response is stored, return
`self._response["choices"][0]["message"]["content"]` (not re-stripped, not
read from the history); with no stored response return `None`.  The
subscript is outside any `try` block, so an empty `choices` list would
raise an uncaught `IndexError`, modelled as the `Except.error` result. -/
def OpenAIModel.get_last_response (self : OpenAIModel) :
    Except IndexError (Option String) :=
  match self._response with
  | none => Except.ok none
  | some response =>
    match response.choices with
    | [] => Except.error IndexError.outOfRange
    | choice :: _ => Except.ok (some choice.message.content)

/-- `list_available_models`: `remote` is the outcome of
`client.models.list`; on success extract the `id` of every catalog record,
on any failure return `None`. -/
def OpenAIModel.list_available_models ( _self : OpenAIModel)
    (remote : Except String ModelList) : Option (List String) :=
  match remote with
  | Except.error _ => none
  | Except.ok models => some (models.data.map (fun m => m.id))

/-- One state transition of the client: the three mutating methods, each
with arbitrary arguments (for `chat`, an arbitrary remote outcome).
`get_last_response` and `list_available_models` do not touch the state. -/
inductive Step : OpenAIModel → OpenAIModel → Prop where
  | add_message (s : OpenAIModel) (role content : String) :
      Step s (s.add_message role content).1
  | chat (s : OpenAIModel) (remote : Except String ChatCompletion) :
      Step s (s.chat remote).1
  | reset_conversation (s : OpenAIModel) :
      Step s s.reset_conversation

/-- States reachable from construction by any sequence of method calls. -/
inductive Reachable : OpenAIModel → Prop where
  | construct (api_key model_name : String) :
      Reachable (OpenAIModel.init api_key model_name)
  | step {s t : OpenAIModel} : Reachable s → Step s t → Reachable t

/-- Every history entry has a valid role and content that survives
stripping. -/
def HistoryOk (s : OpenAIModel) : Prop :=
  ∀ m ∈ s._messages,
    (m.role = "user" ∨ m.role = "assistant" ∨ m.role = "system")
    ∧ pyStrip m.content ≠ ""

/-- A stored raw response has at least one completion candidate. -/
def ResponseOk (s : OpenAIModel) : Prop :=
  ∀ r : ChatCompletion, s._response = some r → r.choices ≠ []

/-- Componentwise decidable equality for Except results. -/
instance {ε α : Type} [DecidableEq ε] [DecidableEq α] : DecidableEq (Except ε α) := fun x y =>
  match x, y with
  | Except.ok a, Except.ok b =>
    if h : a = b then Decidable.isTrue (by rw [h])
    else Decidable.isFalse (fun hc => h (Except.ok.inj hc))
  | Except.ok _, Except.error _ => Decidable.isFalse (fun hc => Except.noConfusion hc)
  | Except.error _, Except.ok _ => Decidable.isFalse (fun hc => Except.noConfusion hc)
  | Except.error e, Except.error f =>
    if h : e = f then Decidable.isTrue (by rw [h])
    else Decidable.isFalse (fun hc => h (Except.error.inj hc))

/-- A remote completion whose only candidate is the text Bonjour!. -/
def bonjourCompletion : ChatCompletion :=
  ⟨[⟨⟨"assistant", "Bonjour!"⟩⟩]⟩

/-- A remote completion whose only candidate carries surrounding
whitespace. -/
def paddedCompletion : ChatCompletion :=
  ⟨[⟨⟨"assistant", "  Bonjour!  "⟩⟩]⟩

/-- A remote completion whose only candidate is whitespace. -/
def blankCompletion : ChatCompletion :=
  ⟨[⟨⟨"assistant", "   "⟩⟩]⟩

/-- A freshly constructed client with one prior user turn Hi. -/
def demoClient : OpenAIModel :=
  ((OpenAIModel.init "key" "gpt-4o-mini").add_message "user" "Hi").1

/-- Stripping a character list twice is the same as stripping it once. -/
theorem stripChars_idem (l : List Char) : stripChars (stripChars l) = stripChars l := by
  unfold stripChars
  have h1 : List.rdropWhile Char.isWhitespace
        (List.dropWhile Char.isWhitespace (List.rdropWhile Char.isWhitespace l))
      = List.dropWhile Char.isWhitespace (List.rdropWhile Char.isWhitespace l) := by
    rw [List.rdropWhile_eq_self_iff]
    intro hl
    have hsuf : List.dropWhile Char.isWhitespace (List.rdropWhile Char.isWhitespace l)
        <:+ List.rdropWhile Char.isWhitespace l := List.dropWhile_suffix _
    have hne : List.rdropWhile Char.isWhitespace l ≠ [] := by
      intro h
      rw [h] at hl
      simp [List.dropWhile] at hl
    rw [hsuf.getLast hl]
    exact List.rdropWhile_last_not _ _ hne
  rw [h1, List.dropWhile_idempotent]

/-- Python strip is idempotent. -/
theorem pyStrip_idem (s : String) : pyStrip (pyStrip s) = pyStrip s :=
  congrArg String.mk (stripChars_idem s.toList)


/-- Case analysis on `add_message`: either it raises and leaves the state
unchanged, or both checks pass and it appends the stripped message. -/
theorem add_message_cases (s : OpenAIModel) (role content : String) :
    ((s.add_message role content).1 = s
      ∧ ∃ e, (s.add_message role content).2 = Except.error e)
    ∨ ((role = "user" ∨ role = "assistant" ∨ role = "system")
        ∧ pyStrip content ≠ ""
        ∧ s.add_message role content
            = ({ s with _messages := s._messages ++ [⟨role, pyStrip content⟩] },
               Except.ok ())) := by
  unfold OpenAIModel.add_message
  by_cases h1 : role = "user" ∨ role = "assistant" ∨ role = "system"
  · by_cases h2 : pyStrip content = ""
    · rw [if_neg (not_not_intro h1), if_pos h2]
      exact Or.inl ⟨rfl, ⟨ValueError.emptyContent, rfl⟩⟩
    · rw [if_neg (not_not_intro h1), if_neg h2]
      exact Or.inr ⟨h1, h2, rfl⟩
  · rw [if_pos h1]
    exact Or.inl ⟨rfl, ⟨ValueError.invalidRole, rfl⟩⟩

/-- `add_message` never touches the stored raw response. -/
theorem add_message_response (s : OpenAIModel) (role content : String) :
    ((s.add_message role content).1)._response = s._response := by
  unfold OpenAIModel.add_message
  split_ifs <;> rfl

/-- `add_message` preserves the history invariant. -/
theorem HistoryOk_add_message (s : OpenAIModel) (role content : String)
    (h : HistoryOk s) : HistoryOk ((s.add_message role content).1) := by
  rcases add_message_cases s role content with ⟨heq, -⟩ | ⟨hrole, hcontent, heq⟩
  · rwa [heq]
  · rw [heq]
    intro m hm
    rcases List.mem_append.mp hm with hm | hm
    · exact h m hm
    · rcases List.mem_singleton.mp hm with rfl
      refine ⟨hrole, ?_⟩
      rw [pyStrip_idem]
      exact hcontent

/-- Equation for `chat` on a failing remote call. -/
theorem chat_error_eq (s : OpenAIModel) (e : String) :
    s.chat (Except.error e) = (s, none) := rfl

/-- Equation for `chat` on a successful remote call with no candidate. -/
theorem chat_nil_eq (s : OpenAIModel) :
    s.chat (Except.ok ⟨[]⟩) = (s, none) := rfl

/-- Equation for `chat` on a successful remote call with a first
candidate. -/
theorem chat_cons_eq (s : OpenAIModel) (choice : Choice) (rest : List Choice) :
    s.chat (Except.ok ⟨choice :: rest⟩)
      = match s.add_message "assistant" (pyStrip choice.message.content) with
        | (s1, Except.error _) => (s1, none)
        | (s1, Except.ok _) =>
          ({ s1 with _response := some ⟨choice :: rest⟩ },
           some (pyStrip choice.message.content)) := rfl

/-- `chat` preserves the history invariant. -/
theorem HistoryOk_chat (s : OpenAIModel) (remote : Except String ChatCompletion)
    (h : HistoryOk s) : HistoryOk ((s.chat remote).1) := by
  rcases remote with e | ⟨choices⟩
  · rwa [chat_error_eq]
  · rcases choices with - | ⟨choice, rest⟩
    · rwa [chat_nil_eq]
    · rw [chat_cons_eq]
      have hadd := HistoryOk_add_message s "assistant" (pyStrip choice.message.content) h
      rcases hres : s.add_message "assistant" (pyStrip choice.message.content)
        with ⟨s1, e | u⟩
      · rw [hres] at hadd
        exact hadd
      · rw [hres] at hadd
        exact hadd

/-- `chat` preserves the stored-response invariant. -/
theorem ResponseOk_chat (s : OpenAIModel) (remote : Except String ChatCompletion)
    (h : ResponseOk s) : ResponseOk ((s.chat remote).1) := by
  rcases remote with e | ⟨choices⟩
  · rwa [chat_error_eq]
  · rcases choices with - | ⟨choice, rest⟩
    · rwa [chat_nil_eq]
    · rw [chat_cons_eq]
      have hresp := add_message_response s "assistant" (pyStrip choice.message.content)
      rcases hres : s.add_message "assistant" (pyStrip choice.message.content)
        with ⟨s1, e | u⟩
      · intro x hx
        rw [hres] at hresp
        have hresp2 : s1._response = s._response := hresp
        have hx2 : s1._response = some x := hx
        exact h x (hresp2.symm.trans hx2)
      · intro x hx
        rcases Option.some.inj hx with rfl
        exact List.cons_ne_nil choice rest

/-- Every reachable client state satisfies both invariants. -/
theorem reachable_invariant {s : OpenAIModel} (hs : Reachable s) :
    HistoryOk s ∧ ResponseOk s := by
  induction hs with
  | construct api_key model_name =>
    constructor
    · intro m hm
      cases hm
    · intro r hr
      cases hr
  | step hprev hstep ih =>
    cases hstep with
    | add_message role content =>
      refine ⟨HistoryOk_add_message _ role content ih.1, ?_⟩
      intro r hr
      rw [add_message_response] at hr
      exact ih.2 r hr
    | chat remote =>
      exact ⟨HistoryOk_chat _ remote ih.1, ResponseOk_chat _ remote ih.2⟩
    | reset_conversation =>
      constructor
      · intro m hm
        cases hm
      · intro r hr
        cases hr

/-- Equation for `add_message` when both checks pass. -/
theorem add_message_ok_eq (s : OpenAIModel) (role content : String)
    (hrole : role = "user" ∨ role = "assistant" ∨ role = "system")
    (hcontent : pyStrip content ≠ "") :
    s.add_message role content
      = ({ s with _messages := s._messages ++ [⟨role, pyStrip content⟩] },
         Except.ok ()) := by
  unfold OpenAIModel.add_message
  rw [if_neg (not_not_intro hrole), if_neg hcontent]

/-- Equation for `get_last_response` with no stored response. -/
theorem get_last_response_none_eq (s : OpenAIModel)
    (h : s._response = none) : s.get_last_response = Except.ok none := by
  unfold OpenAIModel.get_last_response
  rw [h]

/-- Equation for `get_last_response` with a stored response that has a
first candidate. -/
theorem get_last_response_some_eq (s : OpenAIModel) (choice : Choice)
    (rest : List Choice) (h : s._response = some ⟨choice :: rest⟩) :
    s.get_last_response = Except.ok (some choice.message.content) := by
  unfold OpenAIModel.get_last_response
  rw [h]

/-- C1: on every failing remote completion call, for every client state,
chat returns an absent result and leaves the whole state, in particular
the history, unchanged; chat is total, so no exception escapes it. -/
theorem chat_remote_failure_spec (s : OpenAIModel) (err : String) :
    s.chat (Except.error err) = (s, none) := rfl

/-- C2 counterexample: a successful remote completion call whose only
candidate strips to the empty string; chat returns an absent result and
the state, history included, is unchanged, so a successful remote call
does not always append a turn and return its text. -/
theorem chat_success_spec_counterexample :
    (OpenAIModel.init "key" "gpt-3.5-turbo").chat (Except.ok blankCompletion)
      = (OpenAIModel.init "key" "gpt-3.5-turbo", none) := by
  decide

/-- C2 (amended): for every client state and every successful remote
completion call whose first candidate is non-empty after trimming, chat
appends the trimmed text to the history as an assistant turn, stores the
raw response, and returns the trimmed text; the history grows by exactly
one entry. -/
theorem chat_success_spec (s : OpenAIModel) (response : ChatCompletion)
    (choice : Choice) (rest : List Choice)
    (hchoices : response.choices = choice :: rest)
    (hcontent : pyStrip choice.message.content ≠ "") :
    s.chat (Except.ok response)
      = ({ s with
            _messages := s._messages
              ++ [⟨"assistant", pyStrip choice.message.content⟩],
            _response := some response },
         some (pyStrip choice.message.content)) := by
  have hok := add_message_ok_eq s "assistant" (pyStrip choice.message.content)
    (Or.inr (Or.inl rfl)) (by rw [pyStrip_idem]; exact hcontent)
  rcases response with ⟨choices⟩
  have hch : choices = choice :: rest := hchoices
  subst hch
  rw [chat_cons_eq, hok, pyStrip_idem]

/-- C2 witness: the amended theorem applied to the Bonjour completion. -/
theorem chat_success_spec_witness :
    (OpenAIModel.init "key" "gpt-4o-mini").chat (Except.ok bonjourCompletion)
      = ({ OpenAIModel.init "key" "gpt-4o-mini" with
            _messages := [⟨"assistant", "Bonjour!"⟩],
            _response := some bonjourCompletion },
         some "Bonjour!") :=
  (chat_success_spec (OpenAIModel.init "key" "gpt-4o-mini") bonjourCompletion
      ⟨⟨"assistant", "Bonjour!"⟩⟩ [] rfl (by decide)).trans (by decide)

/-- C3: in every reachable client state, get_last_response returns the
first-candidate text of the stored raw response when one is stored and an
absent result when none is stored; its result depends only on the stored
raw response, never on the history; and after the successful Bonjour chat
on a client with one prior user turn it returns Bonjour!. -/
theorem get_last_response_spec (s : OpenAIModel) (hs : Reachable s) :
    (s._response = none → s.get_last_response = Except.ok none)
    ∧ (∀ r : ChatCompletion, s._response = some r →
        ∃ choice rest, r.choices = choice :: rest
          ∧ s.get_last_response = Except.ok (some choice.message.content))
    ∧ (∀ t : OpenAIModel, t._response = s._response →
        t.get_last_response = s.get_last_response)
    ∧ ((demoClient.chat (Except.ok bonjourCompletion)).1.get_last_response
        = Except.ok (some "Bonjour!")) := by
  refine ⟨get_last_response_none_eq s, ?_, ?_, by decide⟩
  · intro r hr
    have hne := (reachable_invariant hs).2 r hr
    rcases r with ⟨choices⟩
    rcases choices with - | ⟨choice, rest⟩
    · exact absurd rfl hne
    · exact ⟨choice, rest, rfl, get_last_response_some_eq s choice rest hr⟩
  · intro t ht
    unfold OpenAIModel.get_last_response
    rw [ht]

/-- C3 witness: the theorem at a freshly constructed client, whose stored
response is absent. -/
theorem get_last_response_spec_witness :
    (OpenAIModel.init "key" "gpt-3.5-turbo").get_last_response
      = Except.ok none :=
  (get_last_response_spec (OpenAIModel.init "key" "gpt-3.5-turbo")
      (Reachable.construct "key" "gpt-3.5-turbo")).1 rfl

/-- C4: add_message raises exactly when the role is invalid (invalid-role
error) or the stripped content is empty (empty-content error, checked
second); whenever it raises, the state, history included, is unchanged. -/
theorem add_message_validation_spec (s : OpenAIModel) (role content : String) :
    ((∃ e, (s.add_message role content).2 = Except.error e)
        ↔ (¬(role = "user" ∨ role = "assistant" ∨ role = "system")
            ∨ pyStrip content = ""))
    ∧ ((∃ e, (s.add_message role content).2 = Except.error e)
        → (s.add_message role content).1 = s)
    ∧ (¬(role = "user" ∨ role = "assistant" ∨ role = "system")
        → (s.add_message role content).2 = Except.error ValueError.invalidRole)
    ∧ ((role = "user" ∨ role = "assistant" ∨ role = "system")
        → pyStrip content = ""
        → (s.add_message role content).2 = Except.error ValueError.emptyContent) := by
  unfold OpenAIModel.add_message
  by_cases h1 : role = "user" ∨ role = "assistant" ∨ role = "system"
  · by_cases h2 : pyStrip content = ""
    · rw [if_neg (not_not_intro h1), if_pos h2]
      exact ⟨⟨fun _ => Or.inr h2, fun _ => ⟨ValueError.emptyContent, rfl⟩⟩,
        fun _ => rfl, fun hbad => absurd h1 hbad, fun _ _ => rfl⟩
    · rw [if_neg (not_not_intro h1), if_neg h2]
      refine ⟨⟨?_, ?_⟩, ?_, ?_, ?_⟩
      · rintro ⟨e, he⟩
        simp at he
      · rintro (hbad | hbad)
        · exact absurd h1 hbad
        · exact absurd hbad h2
      · rintro ⟨e, he⟩
        simp at he
      · intro hbad
        exact absurd h1 hbad
      · intro _ hbad
        exact absurd hbad h2
  · rw [if_pos h1]
    exact ⟨⟨fun _ => Or.inl h1, fun _ => ⟨ValueError.invalidRole, rfl⟩⟩,
      fun _ => rfl, fun _ => rfl, fun hok _ => absurd hok h1⟩

/-- C4 witness: the theorem at the narrator role of the spec scenario. -/
theorem add_message_validation_spec_witness :
    ((OpenAIModel.init "key" "gpt-4o-mini").add_message "narrator" "hello").1
      = OpenAIModel.init "key" "gpt-4o-mini" :=
  (add_message_validation_spec (OpenAIModel.init "key" "gpt-4o-mini")
      "narrator" "hello").2.1 ⟨ValueError.invalidRole, by decide⟩

/-- C5: construction resolves gpt-4o-mini to 16384 tokens, gpt-3.5-turbo
to 4096, and any identifier outside the table to the default 4096; the
constructor is a total function, so construction never fails. -/
theorem construct_max_tokens_spec (api_key m : String)
    (h1 : m ≠ "gpt-4o-mini") (h2 : m ≠ "gpt-3.5-turbo") :
    (OpenAIModel.init api_key "gpt-4o-mini").max_tokens = 16384
    ∧ (OpenAIModel.init api_key "gpt-3.5-turbo").max_tokens = 4096
    ∧ (OpenAIModel.init api_key m).max_tokens = 4096 := by
  refine ⟨rfl, rfl, ?_⟩
  show get_model_max_tokens m = 4096
  unfold get_model_max_tokens
  have e1 : (m == "gpt-4o-mini") = false := beq_eq_false_iff_ne.mpr h1
  have e2 : (m == "gpt-3.5-turbo") = false := beq_eq_false_iff_ne.mpr h2
  simp [List.lookup, e1, e2]

/-- C5 witness: the theorem at the unrecognized identifier foo-bar. -/
theorem construct_max_tokens_spec_witness :
    (OpenAIModel.init "key" "foo-bar").max_tokens = 4096 :=
  (construct_max_tokens_spec "key" "foo-bar" (by decide) (by decide)).2.2

/-- C6: in every reachable client state, every history entry has a role
among user, assistant, system and content that is non-empty after
trimming. -/
theorem history_invariant_spec (s : OpenAIModel) (hs : Reachable s) :
    ∀ m ∈ s._messages,
      (m.role = "user" ∨ m.role = "assistant" ∨ m.role = "system")
      ∧ pyStrip m.content ≠ "" :=
  (reachable_invariant hs).1

/-- C6 witness: the theorem at the reachable client holding the user turn
Hi. -/
theorem history_invariant_spec_witness :
    ((Message.mk "user" "Hi").role = "user"
        ∨ (Message.mk "user" "Hi").role = "assistant"
        ∨ (Message.mk "user" "Hi").role = "system")
    ∧ pyStrip (Message.mk "user" "Hi").content ≠ "" :=
  history_invariant_spec demoClient
    (Reachable.step (Reachable.construct "key" "gpt-4o-mini")
      (Step.add_message (OpenAIModel.init "key" "gpt-4o-mini") "user" "Hi"))
    (Message.mk "user" "Hi") (by decide)

/-- C7: after reset_conversation the history is empty and
get_last_response returns an absent result, whatever the prior state, and
reset_conversation is idempotent. -/
theorem reset_conversation_spec (s : OpenAIModel) :
    (s.reset_conversation)._messages = []
    ∧ s.reset_conversation.get_last_response = Except.ok none
    ∧ s.reset_conversation.reset_conversation = s.reset_conversation :=
  ⟨rfl, rfl, rfl⟩

/-- C8: list_available_models maps a failing catalog call to an absent
result (the handler catches every error, so none escapes) and a successful
one to the identifiers extracted from the remote catalog. -/
theorem list_available_models_spec (s : OpenAIModel) (err : String)
    (catalog : ModelList) :
    s.list_available_models (Except.error err) = none
    ∧ s.list_available_models (Except.ok catalog)
        = some (catalog.data.map (fun m => m.id)) :=
  ⟨rfl, rfl⟩

/-- C9: a successful chat whose candidate text carries surrounding
whitespace returns, and stores in history, the trimmed text, while
get_last_response afterwards returns the untrimmed content of the stored
raw response, so the two values differ. -/
theorem get_last_response_untrimmed_spec :
    ((OpenAIModel.init "key" "gpt-4o-mini").chat
        (Except.ok paddedCompletion)).2 = some "Bonjour!"
    ∧ (((OpenAIModel.init "key" "gpt-4o-mini").chat
        (Except.ok paddedCompletion)).1)._messages
        = [Message.mk "assistant" "Bonjour!"]
    ∧ (((OpenAIModel.init "key" "gpt-4o-mini").chat
        (Except.ok paddedCompletion)).1).get_last_response
        = Except.ok (some "  Bonjour!  ")
    ∧ some "  Bonjour!  " ≠ some "Bonjour!" := by
  decide

/-- C10: a successful remote completion call whose first candidate strips
to the empty string makes chat catch the internal validation error and
return an absent result, with the whole state, history and stored raw
response included, unchanged. -/
theorem chat_blank_completion_spec (s : OpenAIModel)
    (response : ChatCompletion) (choice : Choice) (rest : List Choice)
    (hchoices : response.choices = choice :: rest)
    (hblank : pyStrip choice.message.content = "") :
    s.chat (Except.ok response) = (s, none) := by
  rcases response with ⟨choices⟩
  have hch : choices = choice :: rest := hchoices
  subst hch
  have herr : s.add_message "assistant" (pyStrip choice.message.content)
      = (s, Except.error ValueError.emptyContent) := by
    unfold OpenAIModel.add_message
    rw [if_neg (not_not_intro (Or.inr (Or.inl rfl))),
      if_pos (by rw [pyStrip_idem]; exact hblank)]
  rw [chat_cons_eq, herr]

/-- C10 witness: the theorem at the whitespace completion. -/
theorem chat_blank_completion_spec_witness :
    (OpenAIModel.init "key" "gpt-4o-mini").chat (Except.ok blankCompletion)
      = (OpenAIModel.init "key" "gpt-4o-mini", none) :=
  chat_blank_completion_spec (OpenAIModel.init "key" "gpt-4o-mini")
    blankCompletion ⟨⟨"assistant", "   "⟩⟩ [] rfl (by decide)
